import Mathlib

/-! Shallow embedding of the ggez 3D-cube example (`src/main.rs`).

Covered here: the camera math (`default_view`,
`Camera::build_view_projection_matrix`), the GPU-uniform packer
(`CameraUniform`), the cube mesh data (`vertex_data`, `index_data`), the
depth-stencil pipeline configuration, the per-frame command trace recorded by
`MainState::draw`, and the resize handler `MainState::resize_event`.

Scalar modelling: the camera math is over ℝ (the `f32` transcendental
operations `sqrt`, `sin`, `cos` and the constant π are modelled by their real
counterparts).  Mesh data, screen rectangles, depth values and text positions
only ever hold small dyadic constants, so they are modelled over ℚ, exactly,
keeping every check decidable. -/

namespace CubeGgez

/-- Vector with three real components, modelling glam `Vec3`. -/
structure Vec3 where
  x : ℝ
  y : ℝ
  z : ℝ

/-- Vector with four real components, modelling glam `Vec4`. -/
structure Vec4 where
  x : ℝ
  y : ℝ
  z : ℝ
  w : ℝ

/-- Column-major 4×4 matrix, modelling glam `Mat4`: the four fields are the
four columns, exactly as in glam. -/
structure Mat4 where
  x_axis : Vec4
  y_axis : Vec4
  z_axis : Vec4
  w_axis : Vec4

noncomputable def Vec3.sub (a b : Vec3) : Vec3 :=
  ⟨a.x - b.x, a.y - b.y, a.z - b.z⟩

noncomputable def Vec3.dot (a b : Vec3) : ℝ :=
  a.x * b.x + a.y * b.y + a.z * b.z

noncomputable def Vec3.cross (a b : Vec3) : Vec3 :=
  ⟨a.y * b.z - a.z * b.y, a.z * b.x - a.x * b.z, a.x * b.y - a.y * b.x⟩

noncomputable def Vec3.scale (k : ℝ) (v : Vec3) : Vec3 :=
  ⟨k * v.x, k * v.y, k * v.z⟩

/-- glam `Vec3::normalize`: multiply by the reciprocal length. -/
noncomputable def Vec3.normalize (v : Vec3) : Vec3 :=
  Vec3.scale (Real.sqrt (v.dot v))⁻¹ v

noncomputable def Vec4.scale (k : ℝ) (v : Vec4) : Vec4 :=
  ⟨k * v.x, k * v.y, k * v.z, k * v.w⟩

noncomputable def Vec4.add (a b : Vec4) : Vec4 :=
  ⟨a.x + b.x, a.y + b.y, a.z + b.z, a.w + b.w⟩

/-- glam `Mat4::look_to_rh(eye, dir, up)`. -/
noncomputable def Mat4.look_to_rh (eye dir up : Vec3) : Mat4 :=
  let f := dir.normalize
  let s := (f.cross up).normalize
  let u := s.cross f
  ⟨⟨s.x, u.x, -f.x, 0⟩,
   ⟨s.y, u.y, -f.y, 0⟩,
   ⟨s.z, u.z, -f.z, 0⟩,
   ⟨-(eye.dot s), -(eye.dot u), eye.dot f, 1⟩⟩

/-- glam `Mat4::look_at_rh(eye, center, up)`: right-handed look-at matrix. -/
noncomputable def Mat4.look_at_rh (eye center up : Vec3) : Mat4 :=
  Mat4.look_to_rh eye (center.sub eye) up

/-- glam `Mat4::perspective_rh(fov_y_radians, aspect_ratio, z_near, z_far)`:
right-handed perspective projection with a 0..1 depth range. -/
noncomputable def Mat4.perspective_rh (fovy aspect znear zfar : ℝ) : Mat4 :=
  let sin_fov := Real.sin (0.5 * fovy)
  let cos_fov := Real.cos (0.5 * fovy)
  let h := cos_fov / sin_fov
  let w := h / aspect
  let r := zfar / (znear - zfar)
  ⟨⟨w, 0, 0, 0⟩,
   ⟨0, h, 0, 0⟩,
   ⟨0, 0, r, -1⟩,
   ⟨0, 0, r * znear, 0⟩⟩

/-- glam `Mat4::mul_vec4`: linear combination of the columns. -/
noncomputable def Mat4.mul_vec4 (m : Mat4) (v : Vec4) : Vec4 :=
  (Vec4.scale v.x m.x_axis).add
    ((Vec4.scale v.y m.y_axis).add
      ((Vec4.scale v.z m.z_axis).add (Vec4.scale v.w m.w_axis)))

/-- glam `Mat4` multiplication: each column of the result is `a` applied to
the corresponding column of `b`. -/
noncomputable def Mat4.mul (a b : Mat4) : Mat4 :=
  ⟨a.mul_vec4 b.x_axis, a.mul_vec4 b.y_axis, a.mul_vec4 b.z_axis,
   a.mul_vec4 b.w_axis⟩

/-- glam `Mat4::IDENTITY`. -/
noncomputable def Mat4.identity : Mat4 :=
  ⟨⟨1, 0, 0, 0⟩, ⟨0, 1, 0, 0⟩, ⟨0, 0, 1, 0⟩, ⟨0, 0, 0, 1⟩⟩

/-- The `Camera` struct of `src/main.rs` (lines 23-31). -/
structure Camera where
  eye : Vec3
  target : Vec3
  up : Vec3
  aspect : ℝ
  fovy : ℝ
  znear : ℝ
  zfar : ℝ

/-- `Camera::default` (lines 33-49): eye one unit up and two back, looking at
the origin, up = +Y, aspect 16/9, fovy 45, znear 0.1, zfar 100. -/
noncomputable def Camera.default : Camera :=
  ⟨⟨0, 1, 2⟩, ⟨0, 0, 0⟩, ⟨0, 1, 0⟩, 16 / 9, 45, 0.1, 100⟩

/-- `default_view` (lines 112-119): hardcoded right-handed look-at from
`(1.5, -5, 3)` to the origin with up = `Vector3::Z`. -/
noncomputable def default_view : Mat4 :=
  Mat4.look_at_rh ⟨1.5, -5, 3⟩ ⟨0, 0, 0⟩ ⟨0, 0, 1⟩

/-- `Camera::build_view_projection_matrix` (lines 52-61).  Note that the
function ignores `self` entirely: the view comes from `default_view` and the
projection uses the literal constants `PI/4`, `4/3`, `1.0`, `10.0`. -/
noncomputable def Camera.build_view_projection_matrix (_self : Camera) : Mat4 :=
  let view := default_view
  let proj := Mat4.perspective_rh (Real.pi / 4) (4 / 3) 1 10
  proj.mul view

/-- Models `[f32; 4]`, the target of `Vec4::into()` in `update_view_proj`. -/
structure Arr4 where
  a0 : ℝ
  a1 : ℝ
  a2 : ℝ
  a3 : ℝ

/-- The `Into<[f32; 4]>` conversion applied to each matrix column. -/
noncomputable def Vec4.toArr4 (v : Vec4) : Arr4 :=
  ⟨v.x, v.y, v.z, v.w⟩

/-- Models `[[f32; 4]; 4]`: the four packed columns, in order. -/
structure Arr4x4 where
  c0 : Arr4
  c1 : Arr4
  c2 : Arr4
  c3 : Arr4

/-- The `CameraUniform` struct (lines 64-71). -/
structure CameraUniform where
  view_proj : Arr4x4

/-- `CameraUniform::new` (lines 74-83): the identity columns. -/
noncomputable def CameraUniform.new : CameraUniform :=
  ⟨⟨Mat4.identity.x_axis.toArr4, Mat4.identity.y_axis.toArr4,
    Mat4.identity.z_axis.toArr4, Mat4.identity.w_axis.toArr4⟩⟩

/-- `CameraUniform::update_view_proj` (lines 85-93): recompute the
view-projection matrix from the camera and store its four columns, in order,
as four 4-float arrays.  The previous contents of `self` are discarded. -/
noncomputable def CameraUniform.update_view_proj (_self : CameraUniform)
    (camera : Camera) : CameraUniform :=
  let view := camera.build_view_projection_matrix
  ⟨⟨view.x_axis.toArr4, view.y_axis.toArr4, view.z_axis.toArr4,
    view.w_axis.toArr4⟩⟩

/-- Spec-side recomposition: reassemble a matrix from the four packed
columns (used to state the round-trip property of the packer). -/
noncomputable def Arr4.toVec4 (a : Arr4) : Vec4 :=
  ⟨a.a0, a.a1, a.a2, a.a3⟩

/-- Spec-side recomposition of the packed `[[f32;4];4]` into a `Mat4`. -/
noncomputable def recompose_columns (a : Arr4x4) : Mat4 :=
  ⟨a.c0.toVec4, a.c1.toVec4, a.c2.toVec4, a.c3.toVec4⟩

/-- C1: for every `Camera` value, `build_view_projection_matrix` returns
exactly `P * V` where `V` is the right-handed look-at matrix for eye
`(1.5, -5, 3)`, target the origin, up `+Z`, and `P` is the right-handed
perspective matrix with fovy `π/4`, aspect `4/3`, near `1.0`, far `10.0`;
in particular any two cameras produce equal results. -/
theorem build_view_projection_matrix_hardcoded (c c₂ : Camera) :
    c.build_view_projection_matrix =
      Mat4.mul (Mat4.perspective_rh (Real.pi / 4) (4 / 3) 1 10)
        (Mat4.look_at_rh ⟨1.5, -5, 3⟩ ⟨0, 0, 0⟩ ⟨0, 0, 1⟩) ∧
    c.build_view_projection_matrix = c₂.build_view_projection_matrix :=
  ⟨rfl, rfl⟩

/-- C7: the packer stores the four columns of the camera's view-projection
matrix in order, recomposing the stored columns yields that matrix exactly,
and the packed result depends only on the matrix (not on the previous uniform
contents): cameras with equal matrices pack identically. -/
theorem uniform_pack_roundtrip (u u' : CameraUniform) (c c' : Camera) :
    recompose_columns (u.update_view_proj c).view_proj =
      c.build_view_projection_matrix ∧
    (u.update_view_proj c).view_proj =
      ⟨c.build_view_projection_matrix.x_axis.toArr4,
       c.build_view_projection_matrix.y_axis.toArr4,
       c.build_view_projection_matrix.z_axis.toArr4,
       c.build_view_projection_matrix.w_axis.toArr4⟩ ∧
    (c.build_view_projection_matrix = c'.build_view_projection_matrix →
      u.update_view_proj c = u'.update_view_proj c') := by
  refine ⟨rfl, rfl, fun h => ?_⟩
  simp only [CameraUniform.update_view_proj, h]

/-- Witness for `uniform_pack_roundtrip` at concrete inputs: packing from a
freshly initialised uniform and from an already-written one agree on the
default camera. -/
theorem uniform_pack_roundtrip_witness :
    CameraUniform.new.update_view_proj Camera.default =
      (CameraUniform.new.update_view_proj Camera.default).update_view_proj
        Camera.default :=
  (uniform_pack_roundtrip CameraUniform.new
    (CameraUniform.new.update_view_proj Camera.default)
    Camera.default Camera.default).2.2 rfl

/-- The `Vertex` struct (lines 96-101): a 4-float homogeneous position and a
2-float texture coordinate.  The `f32` components are modelled over ℚ; every
value occurring in the program is a small integer, represented exactly. -/
structure Vertex where
  pos : ℚ × ℚ × ℚ × ℚ
  tex_coord : ℚ × ℚ
deriving DecidableEq

/-- `Vertex::new` (lines 103-110): widen the three `i8` position components,
append `w = 1.0`, and widen the two `i8` texture components. -/
def Vertex.new (p1 p2 p3 t1 t2 : ℤ) : Vertex :=
  ⟨((p1 : ℚ), (p2 : ℚ), (p3 : ℚ), 1), ((t1 : ℚ), (t2 : ℚ))⟩

/-- `vertex_data` (lines 146-177): the 24 cube vertices, four per face, in
source order (top, bottom, right, left, front, back). -/
def vertex_data : List Vertex :=
  [Vertex.new (-1) (-1) 1 0 0,
   Vertex.new 1 (-1) 1 1 0,
   Vertex.new 1 1 1 1 1,
   Vertex.new (-1) 1 1 0 1,
   Vertex.new (-1) 1 (-1) 1 0,
   Vertex.new 1 1 (-1) 0 0,
   Vertex.new 1 (-1) (-1) 0 1,
   Vertex.new (-1) (-1) (-1) 1 1,
   Vertex.new 1 (-1) (-1) 0 0,
   Vertex.new 1 1 (-1) 1 0,
   Vertex.new 1 1 1 1 1,
   Vertex.new 1 (-1) 1 0 1,
   Vertex.new (-1) (-1) 1 1 0,
   Vertex.new (-1) 1 1 0 0,
   Vertex.new (-1) 1 (-1) 0 1,
   Vertex.new (-1) (-1) (-1) 1 1,
   Vertex.new 1 1 (-1) 1 0,
   Vertex.new (-1) 1 (-1) 0 0,
   Vertex.new (-1) 1 1 0 1,
   Vertex.new 1 1 1 1 1,
   Vertex.new 1 (-1) 1 0 0,
   Vertex.new (-1) (-1) 1 1 0,
   Vertex.new (-1) (-1) (-1) 1 1,
   Vertex.new 1 (-1) (-1) 0 1]

/-- `index_data` (lines 179-187): 36 `u32` indices, six per face.  All values
are below 24, far from the `u32` range, so they are modelled as ℕ. -/
def index_data : List ℕ :=
  [0, 1, 2, 2, 3, 0,
   4, 5, 6, 6, 7, 4,
   8, 9, 10, 10, 11, 8,
   12, 13, 14, 14, 15, 12,
   16, 17, 18, 18, 19, 16,
   20, 21, 22, 22, 23, 20]

/-- Spec-side definition, from the spec's words: the `{0,1,2,2,3,0}` pattern
offset by `4*f` for each face `f` in `0..6`. -/
def spec_index_pattern : List ℕ :=
  (List.range 6).flatMap (fun f =>
    [4 * f, 4 * f + 1, 4 * f + 2, 4 * f + 2, 4 * f + 3, 4 * f])

/-- Placeholder vertex used as the out-of-range fallback of `List.getD`. -/
def dummy_vertex : Vertex := ⟨(0, 0, 0, 0), (0, 0)⟩

/-- C4: the mesh builder's output is the constant list above with exactly 24
vertices and 36 indices, every index is strictly below 24, and the index list
is exactly the `{0,1,2,2,3,0}`-offset-by-`4*f` pattern over the six faces. -/
theorem mesh_constant_shape :
    vertex_data.length = 24 ∧
    index_data.length = 36 ∧
    index_data.all (fun i => i < 24) = true ∧
    index_data = spec_index_pattern := by
  refine ⟨rfl, rfl, rfl, ?_⟩
  decide

/-- C2 counterexample: vertex 0 (in face 0, the top face) and vertex 12 (in
face 3, the left face) carry the same position `(-1, -1, 1, 1)`, so vertices
of different faces do share positions (cube corners belong to three faces). -/
theorem face_positions_shared_counterexample :
    (vertex_data.getD 0 dummy_vertex).pos =
      (vertex_data.getD 12 dummy_vertex).pos ∧
    (0 : ℕ) / 4 ≠ 12 / 4 := by
  constructor
  · rfl
  · decide

/-- C2 (amended): no vertex buffer entry is shared across faces — the six
index entries of face `f` all lie in that face's own block `4f..4f+3`, so
each face references only its own four vertices (positions still coincide at
cube corners, where three faces meet). -/
theorem face_indices_within_own_block (f k : ℕ) (hf : f < 6) (hk : k < 6) :
    4 * f ≤ index_data.getD (6 * f + k) 0 ∧
    index_data.getD (6 * f + k) 0 < 4 * f + 4 := by
  revert hk; revert k; revert hf; revert f
  decide

/-- Witness for `face_indices_within_own_block` at face 3, entry 4: index 15
lies in block 12..15. -/
theorem face_indices_within_own_block_witness :
    4 * 3 ≤ index_data.getD (6 * 3 + 4) 0 ∧
    index_data.getD (6 * 3 + 4) 0 < 4 * 3 + 4 :=
  face_indices_within_own_block 3 4 (by decide) (by decide)

/-- Decidable per-vertex property: each position coordinate is ±1, the
homogeneous component is 1, and each texture coordinate is 0 or 1. -/
def vertex_unit_ok (v : Vertex) : Bool :=
  (decide (v.pos.1 = -1) || decide (v.pos.1 = 1)) &&
  (decide (v.pos.2.1 = -1) || decide (v.pos.2.1 = 1)) &&
  (decide (v.pos.2.2.1 = -1) || decide (v.pos.2.2.1 = 1)) &&
  decide (v.pos.2.2.2 = 1) &&
  (decide (v.tex_coord.1 = 0) || decide (v.tex_coord.1 = 1)) &&
  (decide (v.tex_coord.2 = 0) || decide (v.tex_coord.2 = 1))

/-- C9: every vertex of the cube mesh has each position coordinate equal to
-1 or 1 (a side-2 cube centred at the origin), homogeneous `w = 1`, and each
texture coordinate equal to 0 or 1. -/
theorem cube_vertices_unit_coords :
    vertex_data.all vertex_unit_ok = true := by
  decide

/-- Colour with four ℚ channels.  Used for clear values; the sRGB-to-linear
conversion that `graphics::LinearColor::from` applies to the 3D pass's clear
colour is not modelled (no claim depends on that value), so the recorded
clear colour is the pre-conversion `Color`. -/
abbrev Color4 : Type := ℚ × ℚ × ℚ × ℚ

/-- ggez `graphics::Rect` (`x, y, w, h`), with `f32` modelled over ℚ. -/
structure Rect where
  x : ℚ
  y : ℚ
  w : ℚ
  h : ℚ
deriving DecidableEq

/-- `wgpu::TextureFormat`, restricted to the variants the program uses. -/
inductive TextureFormat where
  | depth32Float
  | surfaceFormat
deriving DecidableEq

/-- `wgpu::CompareFunction`, all eight variants. -/
inductive CompareFunction where
  | never
  | less
  | equal
  | lessEqual
  | greater
  | notEqual
  | greaterEqual
  | always
deriving DecidableEq

/-- The depth-relevant fields of `wgpu::DepthStencilState` (stencil state and
depth bias are left at `default()` in the source and carry no claim). -/
structure DepthStencilState where
  format : TextureFormat
  depth_write_enabled : Bool
  depth_compare : CompareFunction
deriving DecidableEq

/-- The `depth_stencil` value of the render pipeline descriptor
(lines 325-331): `Depth32Float`, writes enabled, compare `Greater`. -/
def cube_depth_stencil : DepthStencilState :=
  ⟨.depth32Float, true, .greater⟩

/-- `wgpu` depth-test semantics: does a fragment at depth `frag` pass the
test against the stored depth `stored` under the given compare function? -/
def depth_test_passes (cmp : CompareFunction) (frag stored : ℚ) : Bool :=
  match cmp with
  | .never => false
  | .less => decide (frag < stored)
  | .equal => decide (frag = stored)
  | .lessEqual => decide (frag ≤ stored)
  | .greater => decide (stored < frag)
  | .notEqual => decide (¬frag = stored)
  | .greaterEqual => decide (stored ≤ frag)
  | .always => true

/-- A load operation with clear value of type `α` (`wgpu::LoadOp`; for the
ggez canvas, `none` plays the role of load-without-clear). -/
inductive LoadOp (α : Type) where
  | clear (v : α)
  | load
deriving DecidableEq

/-- The two attachment images a frame touches: the swapchain frame colour
target and the `ScreenImage` depth target. -/
inductive AttachTarget where
  | frame
  | depthTarget
deriving DecidableEq

/-- `wgpu::IndexFormat`. -/
inductive IndexFormat where
  | uint16
  | uint32
deriving DecidableEq

/-- One recorded command of `MainState::draw`, in the order the source
issues them: ggez canvas operations and raw `wgpu` render-pass operations. -/
inductive RenderCmd where
  | canvasFromFrame (target : AttachTarget) (clear : Option Color4)
  | setScreenCoordinates (r : Rect)
  | beginRenderPass (colorTarget : AttachTarget) (colorLoad : LoadOp Color4)
      (colorStore : Bool) (depthView : AttachTarget) (depthLoad : LoadOp ℚ)
      (depthStore : Bool)
  | setPipeline
  | setBindGroup (index : ℕ)
  | setVertexBuffer (slot : ℕ)
  | setIndexBuffer (fmt : IndexFormat)
  | drawIndexed (firstIndex count : ℕ) (baseVertex : ℤ)
      (firstInstance instanceCount : ℕ)
  | drawText (content : String) (x y : ℚ)
  | canvasFinish
deriving DecidableEq

/-- `Color::BLACK`. -/
def black : Color4 := (0, 0, 0, 1)

/-- The 3D pass background colour `Color::new(0.1, 0.1, 0.1, 1.0)`
(pre-`LinearColor` conversion; see `Color4`). -/
def background_color : Color4 := (0.1, 0.1, 0.1, 1)

/-- The first overlay string (line 474). -/
def text_line_1 : String := "You can mix ggez and wgpu drawing;"

/-- The second overlay string (line 478). -/
def text_line_2 : String := "it basically draws wgpu stuff first, then ggez"

/-- `MainState::draw` (lines 426-490) as the list of commands it records for
one frame, in source order, parametrised by the current `screen_coords`.
The first canvas (created with a `BLACK` clear) is shadowed before `finish`
is ever called on it; its creation and `set_screen_coordinates` call are
still recorded here, in order, as the source performs them.  `draw_indexed
(0..36, 0, 0..1)` is first index 0, count 36, base vertex 0, instances
0..1. -/
def draw_commands (screen_coords : Rect) : List RenderCmd :=
  [.canvasFromFrame .frame (some black),
   .setScreenCoordinates screen_coords,
   .beginRenderPass .frame (.clear background_color) true
     .depthTarget (.clear 0) false,
   .setPipeline,
   .setBindGroup 0,
   .setBindGroup 1,
   .setVertexBuffer 0,
   .setIndexBuffer .uint32,
   .drawIndexed 0 36 0 0 1,
   .canvasFromFrame .frame none,
   .drawText text_line_1 10 210,
   .drawText text_line_2 10 250,
   .canvasFinish]

/-- Is a command a draw (indexed mesh draw or text draw)? -/
def is_draw : RenderCmd → Bool
  | .drawIndexed _ _ _ _ _ => true
  | .drawText _ _ _ => true
  | _ => false

/-- Beginning a canvas applies its clear option to the existing pixel
content: `none` keeps the content, `some c` replaces it with the clear. -/
def canvas_begin_pixels {P : Type} (clear : Option Color4)
    (clearedTo : Color4 → P) (p : P) : P :=
  match clear with
  | none => p
  | some c => clearedTo c

/-- The colour target a command renders into, when it begins a pass or a
canvas. -/
def RenderCmd.color_target_of : RenderCmd → Option AttachTarget
  | .beginRenderPass t _ _ _ _ _ => some t
  | .canvasFromFrame t _ => some t
  | _ => none

/-- C3: the pipeline's depth-stencil state is `Depth32Float` with writes
enabled and compare `Greater`; every frame's render pass clears the depth
attachment to `0.0` with `store = false`; and under the configured compare
function a fragment with larger depth wins the depth test (reversed-Z). -/
theorem depth_reversed_z_config :
    cube_depth_stencil.format = .depth32Float ∧
    cube_depth_stencil.depth_write_enabled = true ∧
    cube_depth_stencil.depth_compare = .greater ∧
    (∀ sc : Rect, (draw_commands sc).getD 2 .canvasFinish =
      .beginRenderPass .frame (.clear background_color) true
        .depthTarget (.clear 0) false) ∧
    (∀ frag stored : ℚ, stored < frag →
      depth_test_passes cube_depth_stencil.depth_compare frag stored = true) := by
  refine ⟨rfl, rfl, rfl, fun _ => rfl, fun frag stored h => ?_⟩
  simpa [depth_test_passes, cube_depth_stencil]

/-- Witness for `depth_reversed_z_config`: a fragment at depth `0.5` beats a
stored depth of `0.3` under the configured compare function. -/
theorem depth_reversed_z_config_witness :
    depth_test_passes cube_depth_stencil.depth_compare 0.5 0.3 = true :=
  depth_reversed_z_config.2.2.2.2 0.5 0.3 (by norm_num)

/-- C5: in one frame of `draw`, the draws among the recorded commands are
exactly one indexed draw (count 36, first index 0, base vertex 0, one
instance) followed by exactly two text draws at `(10, 210)` and `(10, 250)`;
no other draws occur. -/
theorem frame_draw_sequence (sc : Rect) :
    (draw_commands sc).filter is_draw =
      [.drawIndexed 0 36 0 0 1,
       .drawText text_line_1 10 210,
       .drawText text_line_2 10 250] :=
  rfl

/-- C6: the 2D overlay canvas of every frame is begun on the same frame
colour target as the 3D pass with no clear (`None`), it is followed only by
the two text draws and `finish`, and a no-clear begin leaves the existing
pixel content unchanged. -/
theorem overlay_no_clear (sc : Rect) :
    ((draw_commands sc).getD 2 .canvasFinish).color_target_of =
      ((draw_commands sc).getD 9 .canvasFinish).color_target_of ∧
    ((draw_commands sc).getD 9 .canvasFinish).color_target_of = some .frame ∧
    (draw_commands sc).drop 9 =
      [.canvasFromFrame .frame none,
       .drawText text_line_1 10 210,
       .drawText text_line_2 10 250,
       .canvasFinish] ∧
    (∀ (P : Type) (clearedTo : Color4 → P) (p : P),
      canvas_begin_pixels none clearedTo p = p) :=
  ⟨rfl, rfl, rfl, fun _ _ _ => rfl⟩

/-- A call the resize handler could make on the external frame/depth-target
provider.  The handler's emitted calls are recorded so that "signals the
provider" is a statement about the code, not an assumption. -/
inductive ResizeEffect where
  | recreateDepthTarget (w h : ℚ)
deriving DecidableEq

/-- ggez `GameResult` specialised to `()`: `Ok(())` or a game error. -/
inductive GameResultT where
  | ok
  | err (msg : String)
deriving DecidableEq

/-- `MainState::resize_event` (lines 415-420): build
`Rect::new(0.0, 0.0, width, height)`, overwrite `self.screen_coords` with it
and return `Ok(())`.  The body makes no call on any collaborator, so the
effect list is empty. -/
def resize_event (_screen_coords : Rect) (width height : ℚ) :
    Rect × List ResizeEffect × GameResultT :=
  (⟨0, 0, width, height⟩, [], .ok)

/-- C8 counterexample: at input `(800, 600)` the resize handler emits no
`recreateDepthTarget` signal to the frame-target provider — its effect list
is empty — contradicting the claim that it signals the provider. -/
theorem resize_no_signal_counterexample :
    (resize_event ⟨0, 0, 640, 480⟩ 800 600).2.1 = [] ∧
    ResizeEffect.recreateDepthTarget 800 600 ∉
      (resize_event ⟨0, 0, 640, 480⟩ 800 600).2.1 := by
  exact ⟨rfl, by decide⟩

/-- C8 (amended): for every width and height the resize handler updates
`screen_coords` to `(0, 0, width, height)`, makes no call on the
frame-target provider (the depth target is recreated lazily during `draw`),
returns `Ok`, and is idempotent: a second call with the same dimensions
returns exactly the same state, effects and result. -/
theorem resize_pure_update_idempotent (s : Rect) (w h : ℚ) :
    resize_event s w h = (⟨0, 0, w, h⟩, [], .ok) ∧
    resize_event (resize_event s w h).1 w h = resize_event s w h :=
  ⟨rfl, rfl⟩

/-- C10: the resize handler never fails — for every input, including zero or
negative dimensions, it returns `Ok` and unconditionally overwrites
`screen_coords` with `(0, 0, width, height)`; no validation occurs. -/
theorem resize_total_ok (s : Rect) (w h : ℚ) :
    (resize_event s w h).2.2 = .ok ∧
    (resize_event s w h).1 = ⟨0, 0, w, h⟩ :=
  ⟨rfl, rfl⟩

end CubeGgez
